import Mathlib

/- Verification development for the QueryTranslator repository (SQLConverter.js,
   TableParser.js): a shallow embedding of the JavaScript source into Lean 4,
   together with theorems settling the specification claims.

   Modelling conventions:
   * JS strings are Lean `String`s; all character-level work is done on
     `String.data : List Char`. Only the ASCII behaviour of
     `toUpperCase`/`toLowerCase`/`\s`/`\w` is modelled (all inputs of interest
     are ASCII).
   * JS regular expressions in the source are hand-compiled, pattern by
     pattern, into deterministic scanners.  Each scanner is documented with the
     regex it implements.
   * JS exceptions (caught by `parseAll`'s try/catch) are modelled by `Option`.
   * JS `Number(...)` coercion (used by `length > 0` / `length == 1`) is
     modelled exactly over decimal/hex/binary/octal/Infinity literals; the
     float64 rounding of extreme literals (>1e308, 17+ significant digits)
     is not modelled, as it cannot affect any comparison with 0 or 1 performed
     here on realistic length strings.
-/

set_option maxHeartbeats 4000000
set_option maxRecDepth 8192

/-- ASCII fragment of JS `String.prototype.toUpperCase` on one char. -/
def jsCharUpper (c : Char) : Char :=
  if 'a' ≤ c && c ≤ 'z' then Char.ofNat (c.toNat - 32) else c

/-- ASCII fragment of JS `String.prototype.toLowerCase` on one char. -/
def jsCharLower (c : Char) : Char :=
  if 'A' ≤ c && c ≤ 'Z' then Char.ofNat (c.toNat + 32) else c

/-- JS `toUpperCase` (ASCII). -/
def jsStrUpper (s : String) : String := ⟨s.data.map jsCharUpper⟩

/-- JS `toLowerCase` (ASCII). -/
def jsStrLower (s : String) : String := ⟨s.data.map jsCharLower⟩

/-- JS regex `\s` / whitespace trimmed by `String.prototype.trim` (ASCII part). -/
def isJsSpace (c : Char) : Bool :=
  c = ' ' || c = '\t' || c = '\n' || c = '\r' || c = '\x0b' || c = '\x0c'

/-- JS regex `\w` (`[A-Za-z0-9_]`). -/
def isWordChar (c : Char) : Bool := c.isAlpha || c.isDigit || c = '_'

/-- JS `String.prototype.trim` on a char list. -/
def jsTrimL (l : List Char) : List Char :=
  ((l.dropWhile isJsSpace).reverse.dropWhile isJsSpace).reverse

/-- JS `String.prototype.trim`. -/
def jsTrim (s : String) : String := ⟨jsTrimL s.data⟩

/-- Substring test on char lists (JS `String.prototype.includes` /
`indexOf(..) != -1`), case sensitive. -/
def containsSubL (n : List Char) : List Char → Bool
  | [] => n.isEmpty
  | c :: t => n.isPrefixOf (c :: t) || containsSubL n t

/-- JS `s.includes(pat)` / `s.indexOf(pat) !== -1`. -/
def containsSub (s pat : String) : Bool := containsSubL pat.data s.data

/-- JS `s.startsWith(pre)`. -/
def jsStartsWith (s pre : String) : Bool := pre.data.isPrefixOf s.data

/-- `type.toLowerCase().indexOf(key.toLowerCase()) === 0`: the key is a
case-insensitive prefix of the type token. -/
def isPrefixCI (key ty : String) : Bool :=
  (jsStrLower key).data.isPrefixOf (jsStrLower ty).data

/-- Case-insensitive literal matcher (canonicalising via `toUpperCase`, as the
ECMAScript `i` flag does): consumes `pat` from the front of the input and
returns the rest, or fails. -/
def litCIU : List Char → List Char → Option (List Char)
  | [], l => some l
  | _ :: _, [] => none
  | p :: ps, c :: cs => if jsCharUpper p = jsCharUpper c then litCIU ps cs else none

/-- Case-sensitive literal matcher: consumes `pat`, returns the rest. -/
def litEx : List Char → List Char → Option (List Char)
  | [], l => some l
  | _ :: _, [] => none
  | p :: ps, c :: cs => if p = c then litEx ps cs else none

/-- JS `String.prototype.split` with a one-char separator. -/
def splitOnCharL (sep : Char) : List Char → List (List Char)
  | [] => [[]]
  | c :: t =>
    if c = sep then [] :: splitOnCharL sep t
    else
      match splitOnCharL sep t with
      | [] => [[c]]
      | h :: r => (c :: h) :: r

/-- JS `s.split(sep)` for a one-char separator. -/
def jsSplitChar (s : String) (sep : Char) : List String :=
  (splitOnCharL sep s.data).map (fun l => (⟨l⟩ : String))

/-- JS `String.prototype.split` with a multi-char separator (leftmost,
non-overlapping); fuel-driven recursion (fuel ≥ length suffices). -/
def splitSubFuel (sep : List Char) : Nat → List Char → List (List Char)
  | _, [] => [[]]
  | 0, l => [l]
  | Nat.succ f, c :: t =>
    if !sep.isEmpty && sep.isPrefixOf (c :: t) then
      [] :: splitSubFuel sep f ((c :: t).drop sep.length)
    else
      match splitSubFuel sep f t with
      | [] => [[c]]
      | h :: r => (c :: h) :: r

/-- JS `s.split(sep)` for a multi-char separator. -/
def jsSplitStr (s sep : String) : List String :=
  (splitSubFuel sep.data (s.data.length + 1) s.data).map (fun l => (⟨l⟩ : String))

/-- Global regex replacement driver: `matchAt` tries to match at the head and
returns the remainder after the match; non-matching chars are copied.  This is
the leftmost, non-overlapping semantics of `String.replace(/re/g, repl)` for
patterns that cannot match the empty string. -/
def replaceAllByFuel (matchAt : List Char → Option (List Char)) (repl : List Char) :
    Nat → List Char → List Char
  | 0, l => l
  | Nat.succ f, l =>
    match matchAt l with
    | some rest => repl ++ replaceAllByFuel matchAt repl f rest
    | none =>
      match l with
      | [] => []
      | c :: t => c :: replaceAllByFuel matchAt repl f t

/-- First-occurrence replacement driver (JS `String.replace` without `g`). -/
def replaceFirstByL (matchAt : List Char → Option (List Char)) (repl : List Char) :
    List Char → List Char
  | [] => []
  | c :: t =>
    match matchAt (c :: t) with
    | some rest => repl ++ rest
    | none => c :: replaceFirstByL matchAt repl t

/-- `SQLConverter.replaceAll(str, search, replacement)` for a search string
without regex metacharacters: case-insensitive global literal replacement. -/
def replaceAllCI (s pat repl : String) : String :=
  ⟨replaceAllByFuel (litCIU pat.data) repl.data (s.data.length + 1) s.data⟩

/-- JS `String.replace(lit, repl)`: first occurrence, case sensitive. -/
def replaceFirstStr (s pat repl : String) : String :=
  ⟨replaceFirstByL (litEx pat.data) repl.data s.data⟩

/- ---------- JS Number(...) coercion, for `length > 0` and `length == 1` ---------- -/

/-- Digits of the optional exponent part of a JS decimal literal
(`e`/`E`, optional sign, at least one digit, end of input). -/
def parseExpPart : List Char → Option Int
  | [] => some 0
  | c :: t =>
    if c = 'e' || c = 'E' then
      let (sg, t2) :=
        match t with
        | '+' :: r => ((1 : Int), r)
        | '-' :: r => ((-1 : Int), r)
        | r => ((1 : Int), r)
      let (ds, r2) := t2.span Char.isDigit
      if ds.isEmpty || !r2.isEmpty then none
      else some (sg * Int.ofNat (ds.foldl (fun n d => n * 10 + (d.toNat - 48)) 0))
    else none

/-- Parses the unsigned decimal part of a JS numeric string: returns
(integer digits, fraction digits, exponent). -/
def parseDecCore (l : List Char) : Option (List Char × List Char × Int) :=
  let (d1, r1) := l.span Char.isDigit
  match r1 with
  | '.' :: r2 =>
    let (d2, r3) := r2.span Char.isDigit
    if d1.isEmpty && d2.isEmpty then none
    else (parseExpPart r3).map (fun e => (d1, d2, e))
  | _ =>
    if d1.isEmpty then none else (parseExpPart r1).map (fun e => (d1, [], e))

/-- Summary of JS `Number(s)` adequate for comparisons with 0 and 1. -/
inductive JsNumVal where
  | zero : JsNumVal
  | inf : Int → JsNumVal
  | radix : List Char → JsNumVal
  | dec : Int → List Char → List Char → Int → JsNumVal
deriving DecidableEq

def isHexDigit (c : Char) : Bool :=
  c.isDigit || ('a' ≤ c && c ≤ 'f') || ('A' ≤ c && c ≤ 'F')

def isOctDigit (c : Char) : Bool := '0' ≤ c && c ≤ '7'

def isBinDigit (c : Char) : Bool := c = '0' || c = '1'

/-- JS `Number(s)` (`StringToNumber`): `none` means NaN. -/
def jsToNumParsed (s : String) : Option JsNumVal :=
  let t := jsTrimL s.data
  if t.isEmpty then some JsNumVal.zero
  else if t = "Infinity".data || t = "+Infinity".data then some (JsNumVal.inf 1)
  else if t = "-Infinity".data then some (JsNumVal.inf (-1))
  else
    match t with
    | '0' :: x :: rest =>
      if x = 'x' || x = 'X' then
        if !rest.isEmpty && rest.all isHexDigit then some (JsNumVal.radix (rest.filter (fun c => c ≠ '0'))) else none
      else if x = 'o' || x = 'O' then
        if !rest.isEmpty && rest.all isOctDigit then some (JsNumVal.radix (rest.filter (fun c => c ≠ '0'))) else none
      else if x = 'b' || x = 'B' then
        if !rest.isEmpty && rest.all isBinDigit then some (JsNumVal.radix (rest.filter (fun c => c ≠ '0'))) else none
      else
        let (sg, u) :=
          match t with
          | '+' :: r => ((1 : Int), r)
          | '-' :: r => ((-1 : Int), r)
          | r => ((1 : Int), r)
        (parseDecCore u).map (fun p => JsNumVal.dec sg p.1 p.2.1 p.2.2)
    | _ =>
      let (sg, u) :=
        match t with
        | '+' :: r => ((1 : Int), r)
        | '-' :: r => ((-1 : Int), r)
        | r => ((1 : Int), r)
      (parseDecCore u).map (fun p => JsNumVal.dec sg p.1 p.2.1 p.2.2)

/-- JS `isNaN(s)` under string-to-number coercion. -/
def jsIsNaN (s : String) : Bool := (jsToNumParsed s).isNone

/-- JS loose comparison `s > 0` for a string `s`. -/
def jsNumGtZero (s : String) : Bool :=
  match jsToNumParsed s with
  | none => false
  | some JsNumVal.zero => false
  | some (JsNumVal.inf sg) => sg = 1
  | some (JsNumVal.radix nz) => !nz.isEmpty
  | some (JsNumVal.dec sg d1 d2 _) => sg = 1 && (d1 ++ d2).any (fun c => c ≠ '0')

/-- JS loose comparison `s == 1` for a string `s`. -/
def jsNumEqOne (s : String) : Bool :=
  match jsToNumParsed s with
  | none => false
  | some JsNumVal.zero => false
  | some (JsNumVal.inf _) => false
  | some (JsNumVal.radix nz) => nz = ['1']
  | some (JsNumVal.dec sg d1 d2 e) =>
    let ds := (d1 ++ d2).dropWhile (fun c => c = '0')
    let scale : Int := e - Int.ofNat d2.length
    sg = 1 && !ds.isEmpty && ds.head? = some '1' && (ds.tail.all (fun c => c = '0')) &&
      scale = -(Int.ofNat (ds.length - 1))

namespace SQLConverter

/-- `this.dbToSqlite` in iteration (insertion) order.  The duplicate
`"tinyint"` literal key occurs once here, as in a JS object. -/
def dbToSqlite : List (String × String) :=
  [("int", "INTEGER"), ("tinyint", "INTEGER"), ("smallint", "INTEGER"),
   ("mediumint", "INTEGER"), ("bigint", "INTEGER"), ("float", "REAL"),
   ("double", "REAL"), ("decimal", "REAL"), ("nvarchar", "NVARCHAR"),
   ("varchar", "NVARCHAR"), ("character varying", "NVARCHAR"), ("char", "TEXT"),
   ("text", "TEXT"), ("tinytext", "TEXT"), ("mediumtext", "TEXT"),
   ("longtext", "TEXT"), ("date", "TEXT"), ("datetime", "TEXT"),
   ("timestamp", "TEXT"), ("time", "TEXT"), ("year", "INTEGER"),
   ("boolean", "INTEGER"), ("json", "TEXT"), ("jsonb", "TEXT"),
   ("integer", "INTEGER"), ("serial", "INTEGER"), ("bigserial", "INTEGER"),
   ("double precision", "REAL"), ("timestamptz", "TEXT")]

/-- `this.dbToMySQL` in iteration order. -/
def dbToMySQL : List (String × String) :=
  [("INTEGER", "INT"), ("REAL", "FLOAT"), ("TEXT", "TEXT"),
   ("NVARCHAR", "VARCHAR"), ("VARCHAR", "VARCHAR"),
   ("CHARACTER VARYING", "VARCHAR"), ("TINYINT(1)", "TINYINT(1)"),
   ("BOOLEAN", "TINYINT(1)"), ("DATETIME", "DATETIME"), ("DATE", "DATE"),
   ("TIMESTAMPTZ", "TIMESTAMP"), ("TIMESTAMP WITH TIME ZONE", "TIMESTAMP"),
   ("TIMESTAMP WITHOUT TIME ZONE", "DATETIME"), ("TIMESTAMP", "TIMESTAMPTZ"),
   ("JSON", "JSON")]

/-- `this.dbToPostgreSQL` in iteration order.  The source object literal
repeats the `"DATETIME"` key; by JS object-literal semantics the key keeps its
first position but the last value (`TIMESTAMP WITHOUT TIME ZONE`) wins. -/
def dbToPostgreSQL : List (String × String) :=
  [("INTEGER", "INTEGER"), ("REAL", "REAL"), ("TEXT", "TEXT"),
   ("NVARCHAR", "CHARACTER VARYING"), ("VARCHAR", "CHARACTER VARYING"),
   ("BOOLEAN", "BOOLEAN"), ("DATETIME", "TIMESTAMP WITHOUT TIME ZONE"),
   ("DATE", "DATE"), ("TIMESTAMPTZ", "TIMESTAMP WITH TIME ZONE"),
   ("TIMESTAMP", "TIMESTAMP WITH TIME ZONE"), ("JSON", "JSONB")]

/-- The `for (let i in table) { if key is case-insensitive prefix of type:
take value, break }` loop shared by the three type mappers. -/
def lookupPrefixCI (tbl : List (String × String)) (ty : String) : Option String :=
  (tbl.find? (fun p => isPrefixCI p.1 ty)).map Prod.snd

/-- Scanner for `/'([^']+)'/g` of `parseEnumValue`: collects the non-empty
runs between single quotes, leftmost first (fuel ≥ length suffices). -/
def parseEnumValueFuel : Nat → List Char → List (List Char)
  | 0, _ => []
  | _ + 1, [] => []
  | f + 1, c :: t =>
    if c = '\'' then
      let run := t.takeWhile (fun d => d ≠ '\'')
      let rest := t.dropWhile (fun d => d ≠ '\'')
      match rest, run with
      | '\'' :: r2, _ :: _ => run :: parseEnumValueFuel f r2
      | _, _ => parseEnumValueFuel f t
    else parseEnumValueFuel f t

/-- `SQLConverter.parseEnumValue(inputString)`: the quoted literals and the
maximum literal length. -/
def parseEnumValue (inputString : String) : List String × Nat :=
  let arr := (parseEnumValueFuel (inputString.data.length + 1) inputString.data).map
    (fun l => (⟨l⟩ : String))
  (arr, arr.foldl (fun m s => if s.data.length > m then s.data.length else m) 0)

/-- `SQLConverter.toSqliteType(type, length)`. -/
def toSqliteType (type length : String) : String :=
  let sqliteType := (lookupPrefixCI dbToSqlite type).getD "TEXT"
  if containsSub (jsStrUpper type) "ENUM" then
    "NVARCHAR(" ++ toString ((parseEnumValue length).2 + 2) ++ ")"
  else if (sqliteType = "NVARCHAR" || sqliteType = "INT") && jsNumGtZero length then
    sqliteType ++ "(" ++ length ++ ")"
  else sqliteType

/-- `SQLConverter.toMySQLType(type, length)`. -/
def toMySQLType (type length : String) : String :=
  if jsStrUpper type = "TINYINT" && jsNumEqOne length then "TINYINT(1)"
  else if (jsStrUpper type = "TINYINT" || jsStrUpper type = "SMALLINT" ||
      jsStrUpper type = "MEDIUMINT" || jsStrUpper type = "BIGINT" ||
      jsStrUpper type = "INTEGER" || jsStrUpper type = "INT") && jsNumGtZero length then
    type ++ "(" ++ length ++ ")"
  else
    let mysqlType := (lookupPrefixCI dbToMySQL type).getD "TEXT"
    let mysqlType := replaceAllCI mysqlType "TIMESTAMPTZ" "TIMESTAMP"
    if containsSub (jsStrUpper type) "ENUM" then
      "enum('" ++ String.intercalate "','" (parseEnumValue length).1 ++ "')"
    else if mysqlType = "VARCHAR" && jsNumGtZero length then
      mysqlType ++ "(" ++ length ++ ")"
    else mysqlType

/-- `SQLConverter.toPostgreSQLType(type, length)`. -/
def toPostgreSQLType (type length : String) : String :=
  let pgType := (lookupPrefixCI dbToPostgreSQL type).getD "TEXT"
  if containsSub (jsStrUpper type) "ENUM" then
    "CHARACTER VARYING(" ++ toString ((parseEnumValue length).2 + 2) ++ ")"
  else if pgType = "CHARACTER VARYING" && jsNumGtZero length then
    pgType ++ "(" ++ length ++ ")"
  else pgType

end SQLConverter

example : SQLConverter.toSqliteType "ENUM" "'a','bb','ccc'" = "NVARCHAR(5)" := by decide

example : SQLConverter.toMySQLType "ENUM" "'a','bb','ccc'" = "enum('a','bb','ccc')" := by decide

example : SQLConverter.toPostgreSQLType "ENUM" "'a','bb','ccc'" = "CHARACTER VARYING(5)" := by decide

example : SQLConverter.toSqliteType "REAL" "" = "TEXT" := by decide

example : SQLConverter.toMySQLType "SMALLINT" "5" = "SMALLINT(5)" := by decide

example : SQLConverter.toSqliteType "VARCHAR" "255" = "NVARCHAR(255)" := by decide

example : SQLConverter.toPostgreSQLType "INT" "" = "TEXT" := by decide

/-- JS `s.endsWith(suf)`. -/
def jsEndsWith (s suf : String) : Bool := suf.data.isSuffixOf s.data

/-- JS `s.slice(1, -1)` (drop first and last char). -/
def jsSlice1m1 (s : String) : String := ⟨(s.data.drop 1).dropLast⟩

/-- The decimal digits `\d` / `[0-9]`, as an explicit list (used instead of
`Char.isDigit` so facts about single characters reduce by `decide`). -/
def isDigitCh (c : Char) : Bool :=
  (['0', '1', '2', '3', '4', '5', '6', '7', '8', '9'] : List Char).contains c

/-- Consume exactly `n` decimal digits. -/
def matchNDigits : Nat → List Char → Option (List Char)
  | 0, l => some l
  | _ + 1, [] => none
  | n + 1, c :: t => if isDigitCh c then matchNDigits n t else none

/-- Consume one expected character. -/
def expectChar (x : Char) : List Char → Option (List Char)
  | [] => none
  | c :: t => if c = x then some t else none

/-- Consume a non-empty whitespace run (`\s+`). -/
def matchWsPlus (l : List Char) : Option (List Char) :=
  let p := l.span isJsSpace
  if p.1.isEmpty then none else some p.2

/-- Regex search driver: tries `p` at every position, leftmost first. -/
def searchBy (p : List Char → Bool) : List Char → Bool
  | [] => p []
  | c :: t => p (c :: t) || searchBy p t

/-- One position of `/\d{4}-\d{2}-\d{2}/`. -/
def dateAt (l : List Char) : Bool :=
  (matchNDigits 4 l |>.bind (expectChar '-') |>.bind (matchNDigits 2)
    |>.bind (expectChar '-') |>.bind (matchNDigits 2)).isSome

/-- One position of `/\d{4}-\d{2}-\d{2}\s+\d{2}:\d{2}:\d{2}/`. -/
def dateTimeAt (l : List Char) : Bool :=
  (matchNDigits 4 l |>.bind (expectChar '-') |>.bind (matchNDigits 2)
    |>.bind (expectChar '-') |>.bind (matchNDigits 2) |>.bind matchWsPlus
    |>.bind (matchNDigits 2) |>.bind (expectChar ':') |>.bind (matchNDigits 2)
    |>.bind (expectChar ':') |>.bind (matchNDigits 2)).isSome

/-- One position of `/\d{4}-\d{2}-\d{2}\s+\d{2}:\d{2}:\d{2}\.\d{6}/`. -/
def dateTimeMicroAt (l : List Char) : Bool :=
  (matchNDigits 4 l |>.bind (expectChar '-') |>.bind (matchNDigits 2)
    |>.bind (expectChar '-') |>.bind (matchNDigits 2) |>.bind matchWsPlus
    |>.bind (matchNDigits 2) |>.bind (expectChar ':') |>.bind (matchNDigits 2)
    |>.bind (expectChar ':') |>.bind (matchNDigits 2) |>.bind (expectChar '.')
    |>.bind (matchNDigits 6)).isSome

/-- One parsed column, i.e. the object pushed onto `fieldList` by
`TableParser.parseTable` (the JS property `Type` is spelled `Typ` here because
`Type` is a Lean keyword). -/
structure ColumnDefinition where
  Field : String
  Typ : String
  Length : String
  Key : Bool
  Nullable : Bool
  Default : Option String
  AutoIncrement : Bool
  EnumValues : Option (List String)
  Comment : Option String
deriving DecidableEq, Repr

/-- The object returned by `TableParser.parseTable`.  `primaryKey` is
`none` where the JS value is `null` or `undefined`. -/
structure TableDefinition where
  tableName : String
  columns : List ColumnDefinition
  primaryKey : Option String
deriving DecidableEq, Repr

/-- One element of the array returned by `TableParser.parseSQL`. -/
structure SqlQuery where
  query : String
  delimiter : String
deriving DecidableEq, Repr

namespace TableParser

/-- `this.typeList` from `init()`. -/
def typeList : List String :=
  ["TIMESTAMPTZ", "TIMESTAMP", "SERIAL4", "BIGSERIAL", "INT2", "INT4", "INT8",
   "TINYINT", "BIGINT", "LONGTEXT", "MEDIUMTEXT", "TEXT", "NVARCHAR", "VARCHAR",
   "ENUM", "SET", "NUMERIC", "DECIMAL", "CHAR", "REAL", "FLOAT", "INTEGER",
   "INT", "DATETIME", "DATE", "DOUBLE", "BOOLEAN", "BOOL", "TIME", "UUID",
   "MONEY", "BLOB", "BIT", "JSON"]

/-- `TableParser.inArray(haystack, needle)`. -/
def inArray (haystack : List String) (needle : String) : Bool := haystack.contains needle

/-- `TableParser.isValidType(dataType)`. -/
def isValidType (dataType : String) : Bool := typeList.contains (jsStrUpper dataType)

/-- `/\s+/g → ' '` (used by `isPrimaryKey`, `isAutoIncrement`, `formatSQL`). -/
def collapseWs (s : String) : String :=
  ⟨replaceAllByFuel (fun l => let p := l.span isJsSpace; if p.1.isEmpty then none else some p.2)
    [' '] (s.data.length + 1) s.data⟩

/-- `TableParser.isPrimaryKey(field)`. -/
def isPrimaryKey (field : String) : Bool :=
  containsSub (jsTrim (collapseWs (jsStrUpper field))) "PRIMARY KEY"

/-- `TableParser.isAutoIncrement(line)`. -/
def isAutoIncrement (line : String) : Bool :=
  let f := jsTrim (collapseWs (jsStrUpper line))
  let ai := containsSub f "AUTO_INCREMENT"
  if !ai then containsSub f "SERIAL" || containsSub f "BIGSERIAL" || containsSub f "NEXTVAL"
  else ai

/-- `TableParser.isInQuotes(defaultValue)`. -/
def isInQuotes (defaultValue : String) : Bool :=
  jsStartsWith defaultValue "'" && jsEndsWith defaultValue "'"

/-- `TableParser.isNumber(defaultValue)`: `!isNaN(v) && v !== ''`. -/
def isNumber (defaultValue : String) : Bool :=
  !jsIsNaN defaultValue && defaultValue ≠ ""

/-- Case 3 test `/^(CURRENT_TIMESTAMP|NOW\(\))$/i` (an anchored
case-insensitive match is equality after `toUpperCase`). -/
def rgCtNowTest (s : String) : Bool :=
  jsStrUpper s = "CURRENT_TIMESTAMP" || jsStrUpper s = "NOW()"

/-- Case 7 test `/^(TRUE|FALSE)$/i`. -/
def rgTrueFalseTest (s : String) : Bool :=
  jsStrUpper s = "TRUE" || jsStrUpper s = "FALSE"

/-- Anchored `/^CURRENT_TIMESTAMP\s+ON\s+<word>\s+CURRENT_TIMESTAMP$/i`. -/
def rgCtOnWordTest (word : String) (s : String) : Bool :=
  (litCIU "CURRENT_TIMESTAMP".data s.data |>.bind matchWsPlus
    |>.bind (litCIU "ON".data) |>.bind matchWsPlus
    |>.bind (litCIU word.data) |>.bind matchWsPlus
    |>.bind (litCIU "CURRENT_TIMESTAMP".data)) = some []

/-- `TableParser.fixDefaultValue(defaultValue)`: the default-value
normalizer; `none` is JS `null`, and a falsy (empty/null) input yields `null`. -/
def fixDefaultValue (defaultValue : Option String) : Option String :=
  match defaultValue with
  | none => none
  | some s =>
    if s = "" then none
    else if containsSub (jsStrUpper s) "NULL" then some "NULL"
    else if isNumber s then some ("'" ++ s ++ "'")
    else if rgCtNowTest s then some (jsStrUpper s)
    else if jsStartsWith s "'" && jsEndsWith s "'" && searchBy dateAt (jsSlice1m1 s).data then
      some ("'" ++ jsSlice1m1 s ++ "'")
    else if searchBy dateTimeAt s.data then some ("'" ++ s ++ "'")
    else if searchBy dateTimeMicroAt s.data then some ("'" ++ s ++ "'")
    else if rgTrueFalseTest s then some (jsStrUpper s)
    else if rgCtOnWordTest "UPDATE" s then some (jsStrUpper s)
    else if rgCtOnWordTest "INSERT" s then some (jsStrUpper s)
    else if isInQuotes s then some ("'" ++ jsSlice1m1 s ++ "'")
    else some s

end TableParser

namespace SQLConverter

/-- `SQLConverter.fixDefaultValue(defaultValue, targetType)` (drops
`NOW()`-class defaults for a SQLite target). -/
def fixDefaultValue (defaultValue targetType : String) : String :=
  if targetType = "sqlite" then
    (if containsSub (jsStrLower defaultValue) "now(" then "" else defaultValue)
  else defaultValue

/-- The body of the column loop in `SQLConverter.toTable`: renders one
column definition line. -/
def emitColDef (targetType : String) (primaryKey : Option String)
    (col : ColumnDefinition) : String :=
  let columnName :=
    if targetType = "mysql" || targetType = "mariadb" then "`" ++ col.Field ++ "`"
    else col.Field
  let isPk := primaryKey == some col.Field
  let colDef := "\t" ++ columnName ++ " " ++ col.Typ
  let colDef :=
    if isPk then colDef ++ " PRIMARY KEY" ++ " NOT NULL"
    else if col.Nullable then colDef ++ " NULL" else colDef ++ " NOT NULL"
  match col.Default with
  | none => colDef
  | some dv =>
    if !isPk && dv ≠ "" then
      let dv := replaceAllCI dv "::character varying" ""
      let dv := fixDefaultValue dv targetType
      if dv ≠ "" then colDef ++ " DEFAULT " ++ dv else colDef
    else colDef

/-- `SQLConverter.toTable(table, targetType)`. -/
def toTable (table : TableDefinition) (targetType : String) : String :=
  let tableName :=
    if containsSub table.tableName "." then (jsSplitChar table.tableName '.').getD 1 ""
    else table.tableName
  let tableName :=
    if targetType = "mysql" || targetType = "mariadb" then "`" ++ tableName ++ "`"
    else if targetType = "pgsql" || targetType = "postgresql" then "\"" ++ tableName ++ "\""
    else tableName
  "CREATE TABLE " ++ tableName ++ "\r\n(\r\n" ++
    String.intercalate ",\r\n" (table.columns.map (emitColDef targetType table.primaryKey)) ++
    "\r\n);"

/-- `SQLConverter.toSqliteOut(table, targetType)` (through `toSqliteTable`). -/
def toSqliteOut (table : TableDefinition) (targetType : String) : String :=
  toTable { table with
    columns := table.columns.map (fun c => { c with Typ := toSqliteType c.Typ c.Length }) }
    targetType

/-- `SQLConverter.toMySQLOut(table, targetType)` (through `toMySQLTable`). -/
def toMySQLOut (table : TableDefinition) (targetType : String) : String :=
  toTable { table with
    columns := table.columns.map (fun c => { c with Typ := toMySQLType c.Typ c.Length }) }
    targetType

/-- `SQLConverter.toPostgreSQLOut(table, targetType)` (through
`toPostgreSQLTable`). -/
def toPostgreSQLOut (table : TableDefinition) (targetType : String) : String :=
  toTable { table with
    columns := table.columns.map (fun c => { c with Typ := toPostgreSQLType c.Typ c.Length }) }
    targetType

/-- `SQLConverter.convertQuery(table, targetType)`.  For an unrecognized
target the JS function returns `undefined`, which `Array.prototype.join`
renders as the empty string; the model returns `""` directly. -/
def convertQuery (table : TableDefinition) (targetType : String) : String :=
  if targetType = "sqlite" then toSqliteOut table targetType
  else if targetType = "mysql" || targetType = "mariadb" then toMySQLOut table targetType
  else if targetType = "pgsql" || targetType = "postgresql" then toPostgreSQLOut table targetType
  else ""

end SQLConverter

namespace TableParser

/-- State of the line-oriented splitter loop in `TableParser.parseSQL`.
`entries` holds the `queryArray` cells in creation (= index) order, each
paired with its `delimiterArray` value; JS array holes (indices skipped by
`nquery++`) are invisible to the final `forEach` and are not represented. -/
structure SplitState where
  append : Bool
  skip : Bool
  atStart : Bool
  delimiter : String
  entries : List (String × String)
deriving Repr

/-- `queryArray[nquery] += text; delimiterArray[nquery] = delimiter` (the
current cell is always the most recently created one). -/
def appendLastEntry (entries : List (String × String)) (text delim : String) :
    List (String × String) :=
  match entries with
  | [] => []
  | _ :: _ => entries.dropLast ++ [((entries.getLast!).1 ++ text, delim)]

/-- One iteration of the `arr.forEach((text) => ...)` loop in `parseSQL`. -/
def parseSQLStep (st : SplitState) (textRaw : String) : SplitState :=
  let st :=
    if textRaw = "" then
      (if st.append then { st with entries := appendLastEntry st.entries "\r\n" st.delimiter } else st)
    else st
  let st :=
    if !st.append then
      if jsStartsWith (jsTrim textRaw) "--" then { st with skip := true, atStart := true }
      else { st with skip := false }
    else st
  if st.skip then st
  else
    let st :=
      if st.atStart then { st with entries := st.entries ++ [("", st.delimiter)], atStart := false }
      else st
    let st := { st with entries := appendLastEntry st.entries (textRaw ++ "\r\n") st.delimiter }
    let text := jsTrim textRaw
    let startNum : Int := (text.data.length : Int) - (st.delimiter.data.length : Int) - 1
    let lastPart : String := if startNum ≤ 0 then text else ⟨text.data.drop startNum.toNat⟩
    let closed := containsSub lastPart st.delimiter || text = st.delimiter
    let st :=
      if closed then { st with atStart := true, append := false }
      else { st with atStart := false, append := true }
    if jsStartsWith (jsStrLower text) "delimiter " then
      let text2 := collapseWs (jsTrim text)
      let newDelim := ((jsSplitChar text2 ' ').getD 1 "")
      { st with delimiter := newDelim, atStart := true, append := false }
    else st

/-- The final `queryArray.forEach` of `parseSQL`: drop `DELIMITER` directive
cells, trim each query and strip the trailing delimiter. -/
def parseSQLFinal (entries : List (String × String)) : List SqlQuery :=
  entries.filterMap (fun e =>
    if jsStartsWith (jsStrLower e.1) "delimiter " then none
    else
      let t := jsTrim e.1
      some ⟨⟨t.data.take (t.data.length - e.2.data.length)⟩, e.2⟩)

/-- `parseSQL` after line normalization and splitting: trims every line,
drops lines that are blank, `"--"`, or start with `"-- "`, then runs the
splitter state machine. -/
def parseSQLLines (ls : List String) : List SqlQuery :=
  let arr2 := (ls.map jsTrim).filter
    (fun v => !jsStartsWith v "-- " && v ≠ "--" && v ≠ "")
  parseSQLFinal (arr2.foldl parseSQLStep
    { append := false, skip := false, atStart := true, delimiter := ";", entries := [] }).entries

/-- `sql.replace(/\n/g, "\r\n").replace(/\r\r\n/g, "\r\n")`. -/
def normalizeNewlines (sql : String) : String :=
  let s1 : List Char := replaceAllByFuel (litEx ['\n']) ['\r', '\n'] (sql.data.length + 1) sql.data
  ⟨replaceAllByFuel (litEx ['\r', '\r', '\n']) ['\r', '\n'] (s1.length + 1) s1⟩

/-- `TableParser.parseSQL(sql)`. -/
def parseSQL (sql : String) : List SqlQuery :=
  parseSQLLines (jsSplitStr (normalizeNewlines sql) "\r\n")

/-- Matcher for `/\bCREATE\s+TABLE\s+/i` (after the boundary check). -/
def matchCreateTableWs (l : List Char) : Option (List Char) :=
  litCIU "CREATE".data l |>.bind matchWsPlus |>.bind (litCIU "TABLE".data)
    |>.bind matchWsPlus

/-- Matcher for `/\bIF\s+NOT\s+EXISTS\s+/i` (after the boundary check). -/
def matchIfNotExistsWs (l : List Char) : Option (List Char) :=
  litCIU "IF".data l |>.bind matchWsPlus |>.bind (litCIU "NOT".data)
    |>.bind matchWsPlus |>.bind (litCIU "EXISTS".data) |>.bind matchWsPlus

/-- First-occurrence replacement honoring a leading `\b` word boundary: the
match is attempted only where the previous character is not a word char. -/
def replaceFirstWordBdy (matchAt : List Char → Option (List Char)) (repl : List Char) :
    Bool → List Char → List Char
  | _, [] => []
  | prevIsWord, c :: t =>
    match (if prevIsWord then none else matchAt (c :: t)) with
    | some rest => repl ++ rest
    | none => c :: replaceFirstWordBdy matchAt repl (isWordChar c) t

/-- `TableParser.formatSQL(sql)`: the eight sequential `String.replace`
normalization passes. -/
def formatSQL (sql : String) : String :=
  let sql := collapseWs sql
  let sql : String := ⟨replaceFirstWordBdy matchCreateTableWs "CREATE TABLE ".data false sql.data⟩
  let sql : String := ⟨replaceFirstWordBdy matchIfNotExistsWs "IF NOT EXISTS ".data false sql.data⟩
  let sql : String := ⟨replaceFirstByL
    (fun l => let p := l.span isJsSpace
              match p.2 with
              | '(' :: r => some r
              | _ => none) " (".data sql.data⟩
  let sql : String := ⟨replaceFirstByL
    (fun l => let p := l.span isJsSpace
              match p.2 with
              | ')' :: r =>
                (match (r.span isJsSpace).2 with
                 | ';' :: r2 => some r2
                 | _ => none)
              | _ => none) "\r\n);".data sql.data⟩
  let sql : String := ⟨replaceFirstByL
    (fun l => match l with
              | '(' :: r => some (r.dropWhile isJsSpace)
              | _ => none) "(\n\t".data sql.data⟩
  let sql : String := ⟨replaceAllByFuel
    (fun l => match l with
              | ',' :: r => some (r.dropWhile isJsSpace)
              | _ => none) ",\n\t".data (sql.data.length + 1) sql.data⟩
  replaceFirstStr sql "CREATE TABLE" "\nCREATE TABLE"

end TableParser

example : TableParser.parseSQL "a\n\nb;" = [⟨"a\r\nb", ";"⟩] := by decide

example : TableParser.parseSQL "-- c\na;\nb;" = [⟨"a", ";"⟩, ⟨"b", ";"⟩] := by decide

example : TableParser.formatSQL "CREATE TABLE t (a INT, b INT, PRIMARY KEY(a, b))" =
    "\nCREATE TABLE t (\n\ta INT,\n\tb INT,\n\tPRIMARY KEY(a,\n\tb))" := by decide

namespace TableParser

/-- `(line, rest)` split at the first line terminator (JS `.` does not match
`\n` or `\r`). -/
def lineSpan (l : List Char) : List Char × List Char :=
  l.span (fun c => !(c = '\n' || c = '\r'))

/-- The tail `\s(?<tb>.*)\s\(` of the table-header regex: one whitespace
char, then a greedy single-line capture, then a whitespace char and `(`.
Greediness picks the last position `k` (at most one line ahead) where a
whitespace char is immediately followed by `(`. -/
def tbCand : List Char → List Char → Option (List Char) → Option (List Char)
  | acc, l, best =>
    let best' :=
      match l with
      | c :: '(' :: _ => if isJsSpace c then some acc.reverse else best
      | _ => best
    match l with
    | [] => best'
    | c :: t => if c = '\n' || c = '\r' then best' else tbCand (c :: acc) t best'

/-- `\s(?<tb>.*)\s\(` at the current position. -/
def matchTbTail (r : List Char) : Option (List Char) :=
  match r with
  | c :: r2 => if isJsSpace c then tbCand [] r2 none else none
  | [] => none

/-- The table-header regex
`/(create\s+table\s+if\s+not\s+exists|create\s+table)\s(?<tb>.*)\s\(/gim`
at one position: the `IF NOT EXISTS` alternative is tried first, with
backtracking to the short alternative. -/
def matchTbAt (l : List Char) : Option (List Char) :=
  match litCIU "CREATE".data l |>.bind matchWsPlus |>.bind (litCIU "TABLE".data) with
  | none => none
  | some r =>
    let alt1 :=
      match matchWsPlus r |>.bind (litCIU "IF".data) |>.bind matchWsPlus
          |>.bind (litCIU "NOT".data) |>.bind matchWsPlus
          |>.bind (litCIU "EXISTS".data) with
      | some r5 => matchTbTail r5
      | none => none
    match alt1 with
    | some tb => some tb
    | none => matchTbTail r

/-- `rg_tb.exec(sql)`: leftmost match, returning the `tb` capture. -/
def execTb : List Char → Option String
  | [] => none
  | c :: t =>
    match matchTbAt (c :: t) with
    | some tb => some (⟨tb⟩ : String)
    | none => execTb t

/-- Shape of one alternative of the column-fragment regex `rg_fld`: after
`\w+\s+` comes the keyword, either alone (`bare`, e.g. `bigserial`), followed
by `.*` (`rest`, e.g. `int.*`), or followed by `\s*\(.*\)` (`paren`, e.g.
`enum\s*\(.*\)`). -/
inductive FldKind where
  | rest : FldKind
  | bare : FldKind
  | paren : FldKind

/-- The alternatives of `rg_fld`, in source order. -/
def fldAlts : List (String × FldKind) :=
  [("key", .rest), ("bigserial", .bare), ("serial4", .bare), ("serial8", .bare),
   ("tinyint", .rest), ("bigint", .rest), ("longtext", .rest), ("mediumtext", .rest),
   ("text", .rest), ("nvarchar", .rest), ("varchar", .rest), ("char", .rest),
   ("real", .rest), ("float", .rest), ("integer", .rest), ("int", .rest),
   ("datetime", .rest), ("date", .rest), ("double", .rest), ("timestamp", .rest),
   ("timestamptz", .rest), ("boolean", .rest), ("bool", .rest),
   ("enum", .paren), ("set", .paren), ("numeric", .paren), ("decimal", .paren),
   ("int2", .rest), ("int4", .rest), ("int8", .rest), ("time", .rest),
   ("uuid", .rest), ("money", .rest), ("blob", .rest), ("bit", .rest), ("json", .rest)]

/-- One alternative's keyword part, applied after `\w+\s+`: returns
(consumed chars, rest). -/
def matchAlt (kw : String) (kind : FldKind) (l : List Char) : Option (List Char × List Char) :=
  match litCIU kw.data l with
  | none => none
  | some r =>
    let kwChars := l.take kw.data.length
    match kind with
    | .bare => some (kwChars, r)
    | .rest =>
      let p := lineSpan r
      some (kwChars ++ p.1, p.2)
    | .paren =>
      let pws := r.span isJsSpace
      match pws.2 with
      | '(' :: r3 =>
        let ln := (lineSpan r3).1
        let revTail := ln.reverse.dropWhile (fun c => c ≠ ')')
        if revTail.isEmpty then none
        else
          let inner := revTail.reverse
          some (kwChars ++ pws.1 ++ '(' :: inner, r3.drop inner.length)
      | _ => none

/-- First alternative of `rg_fld` that matches at this position. -/
def matchAltsAt (r2 : List Char) : List (String × FldKind) → Option (List Char × List Char)
  | [] => none
  | (kw, kind) :: rest =>
    match matchAlt kw kind r2 with
    | some x => some x
    | none => matchAltsAt r2 rest

/-- `rg_fld` at one position: `\w+\s+` then the keyword alternatives
(maximal `\w+`/`\s+` runs — shorter runs cannot satisfy the next regex
element, so the match is deterministic). -/
def matchFldAt (l : List Char) : Option (List Char × List Char) :=
  let pw := l.span isWordChar
  if pw.1.isEmpty then none
  else
    let ps := pw.2.span isJsSpace
    if ps.1.isEmpty then none
    else
      match matchAltsAt ps.2 fldAlts with
      | some (consumed, rest) => some (pw.1 ++ ps.1 ++ consumed, rest)
      | none => none

/-- Leftmost `rg_fld` match: (matched fragment, rest of input). -/
def findFld : List Char → Option (List Char × List Char)
  | [] => none
  | c :: t =>
    match matchFldAt (c :: t) with
    | some x => some x
    | none => findFld t

/-- `rg_fld2.exec(f)`: `(?<fname>\w+)\s+(?<ftype>\w+)(?<fattr>.*)`, leftmost;
returns `(fname, ftype, fattr, whole match)`. -/
def fld2Exec : List Char → Option (List Char × List Char × List Char × List Char)
  | [] => none
  | c :: t =>
    let l := c :: t
    let pw := l.span isWordChar
    let attempt :=
      if pw.1.isEmpty then none
      else
        let ps := pw.2.span isJsSpace
        if ps.1.isEmpty then none
        else
          let pt := ps.2.span isWordChar
          if pt.1.isEmpty then none
          else
            let pattr := lineSpan pt.2
            some (pw.1, pt.1, pattr.1, pw.1 ++ ps.1 ++ pt.1 ++ pattr.1)
    match attempt with
    | some x => some x
    | none => fld2Exec t

/-- `/enum\s*\(([^)]+)\)/i` (or `set`) at one position. -/
def rgEnumSetAt (kw : String) (l : List Char) : Option (List Char) :=
  match litCIU kw.data l with
  | none => none
  | some r =>
    match (r.span isJsSpace).2 with
    | '(' :: r3 =>
      let inner := r3.takeWhile (fun c => c ≠ ')')
      if inner.isEmpty then none
      else if (r3.drop inner.length).head? = some ')' then some inner
      else none
    | _ => none

/-- Leftmost search for `rgEnumSetAt`. -/
def rgEnumSetExec (kw : String) : List Char → Option (List Char)
  | [] => none
  | c :: t =>
    match rgEnumSetAt kw (c :: t) with
    | some x => some x
    | none => rgEnumSetExec kw t

/-- `enumValues.split(',').map(val => val.trim().replace(/['"]/g, ''))`. -/
def mkEnumArray (inner : List Char) : List String :=
  (splitOnCharL ',' inner).map
    (fun v => ⟨(jsTrimL v).filter (fun c => !(c = '\'' || c = '"'))⟩)

/-- `/not\s+null/i` at one position (returns the rest after the match). -/
def rgNotNullAt (l : List Char) : Option (List Char) :=
  litCIU "NOT".data l |>.bind matchWsPlus |>.bind (litCIU "NULL".data)

/-- `rg_not_null.test(attr)`. -/
def rgNotNullTest (s : String) : Bool :=
  searchBy (fun l => (rgNotNullAt l).isSome) s.data

/-- `/primary\s+key/i` at one position. -/
def rgPkAt (l : List Char) : Option (List Char) :=
  litCIU "PRIMARY".data l |>.bind matchWsPlus |>.bind (litCIU "KEY".data)

/-- `rg_pk.test(s)`. -/
def rgPkTest (s : String) : Bool :=
  searchBy (fun l => (rgPkAt l).isSome) s.data

/-- Group 1 of `rg_fld_def`
`/default\s+([^'"]+|'[^']*'|\"[^\"]*\")\s*(comment\s+'[^']*')?/i` at one
position.  The bare alternative `[^'"]+` is a maximal run; when the value
starts with an unmatched quote the engine backtracks `\s+` by one character
and the bare alternative captures the last whitespace char instead. -/
def rgFldDefAt (l : List Char) : Option (List Char) :=
  match litCIU "DEFAULT".data l with
  | none => none
  | some r =>
    let pws := r.span isJsSpace
    if pws.1.isEmpty then none
    else
      let r2 := pws.2
      let run := r2.takeWhile (fun c => !(c = '\'' || c = '"'))
      if !run.isEmpty then some run
      else
        let quoted :=
          match r2 with
          | '\'' :: r3 =>
            let inner := r3.takeWhile (fun c => c ≠ '\'')
            if (r3.drop inner.length).head? = some '\'' then some ('\'' :: inner ++ ['\'']) else none
          | '"' :: r3 =>
            let inner := r3.takeWhile (fun c => c ≠ '"')
            if (r3.drop inner.length).head? = some '"' then some ('"' :: inner ++ ['"']) else none
          | _ => none
        match quoted with
        | some q => some q
        | none => if pws.1.length ≥ 2 then some [pws.1.getLastD ' '] else none

/-- Leftmost search for `rg_fld_def`. -/
def rgFldDefExec : List Char → Option (List Char)
  | [] => none
  | c :: t =>
    match rgFldDefAt (c :: t) with
    | some x => some x
    | none => rgFldDefExec t

/-- `/COMMENT\s*'([^']*)'/i` at one position (group 1, possibly empty). -/
def rgCommentAt (l : List Char) : Option (List Char) :=
  match litCIU "COMMENT".data l with
  | none => none
  | some r =>
    match (r.span isJsSpace).2 with
    | '\'' :: r3 =>
      let inner := r3.takeWhile (fun c => c ≠ '\'')
      if (r3.drop inner.length).head? = some '\'' then some inner else none
    | _ => none

/-- Leftmost search for `rg_fld_comment`. -/
def rgCommentExec : List Char → Option (List Char)
  | [] => none
  | c :: t =>
    match rgCommentAt (c :: t) with
    | some x => some x
    | none => rgCommentExec t

/-- `/\((.*)\)/` at one position: group 1 runs from this `(` to the last `)`
on the same line. -/
def parenGroupAt (l : List Char) : Option (List Char) :=
  match l with
  | '(' :: r =>
    let ln := (lineSpan r).1
    let revTail := ln.reverse.dropWhile (fun c => c ≠ ')')
    if revTail.isEmpty then none else some (revTail.reverse.dropLast)
  | _ => none

/-- Leftmost search for `/\((.*)\)/` (used by `getLength` and the table-level
primary-key branch). -/
def parenGroupExec : List Char → Option (List Char)
  | [] => none
  | c :: t =>
    match parenGroupAt (c :: t) with
    | some x => some x
    | none => parenGroupExec t

/-- `TableParser.getLength(text)`. -/
def getLength (text : String) : String :=
  if containsSub text "(" && containsSub text ")" then
    match parenGroupExec text.data with
    | some g => (⟨g⟩ : String)
    | none => ""
  else ""

/-- `rg_pk2` `/(PRIMARY|UNIQUE) KEY[a-zA-Z_0-9\s]+\(([a-zA-Z_0-9,\s]+)\)/gi`
at one position; returns the number of chars consumed. -/
def rgPk2At (l : List Char) : Option Nat :=
  let head :=
    match litCIU "PRIMARY".data l with
    | some r => some r
    | none => litCIU "UNIQUE".data l
  match head |>.bind (litCIU " KEY".data) with
  | none => none
  | some r =>
    let p1 := r.span (fun c => isWordChar c || isJsSpace c)
    if p1.1.isEmpty then none
    else
      match p1.2 with
      | '(' :: r2 =>
        let p2 := r2.span (fun c => isWordChar c || isJsSpace c || c = ',')
        if p2.1.isEmpty then none
        else
          match p2.2 with
          | ')' :: r3 => some (l.length - r3.length)
          | _ => none
      | _ => none

/-- `rg_pk2.test(f)` with the `lastIndex` statefulness of a `/g` regex:
returns the outcome and the new `lastIndex`. -/
def rgPk2Test (f : List Char) (lastIdx : Nat) : Bool × Nat :=
  if lastIdx > f.length then (false, 0)
  else
    let rec go (off : Nat) (l : List Char) : Bool × Nat :=
      match l with
      | [] => (false, 0)
      | c :: t =>
        match rgPk2At (c :: t) with
        | some n => (true, off + n)
        | none => go (off + 1) t
    go lastIdx (f.drop lastIdx)

/-- Accumulator of the `while ((result = rg_fld.exec(sql)) != null)` loop in
`parseTable`.  `failed` records a thrown (and later caught) JS exception. -/
structure ParseState where
  fieldList : List ColumnDefinition
  primaryKey : Option String
  columnList : List String
  primaryKeyList : List String
  pk2Last : Nat
  failed : Bool

/-- The body of the field-scanning loop of `parseTable`, processing one
`rg_fld` match `f`. -/
def processFld (st : ParseState) (f : List Char) : ParseState :=
  match fld2Exec f with
  | none => { st with failed := true }
  | some (fname, ftype, fattr, dataTypeRaw) =>
    let line : String := ⟨f⟩
    let dataType : String := ⟨ftype⟩
    let dataTypeOriginal := dataType
    let enumArray : Option (List String) :=
      match rgEnumSetExec "ENUM" dataTypeRaw with
      | some inner => some (mkEnumArray inner)
      | none => none
    let enumArray : Option (List String) :=
      match rgEnumSetExec "SET" dataTypeRaw with
      | some inner => some (mkEnumArray inner)
      | none => enumArray
    let st :=
      if isValidType dataType || isValidType dataTypeOriginal then
        let attr := jsTrim (replaceFirstStr (⟨fattr⟩ : String) "," "")
        let nullable := !rgNotNullTest attr
        let attr2 : String := ⟨replaceFirstByL rgNotNullAt [] attr.data⟩
        let isPk := rgPkTest attr2 || isPrimaryKey line
        let isAi := isAutoIncrement line
        let defaultValue := fixDefaultValue
          ((rgFldDefExec attr2.data).map (fun g => jsTrim (⟨g⟩ : String)))
        let comment : Option String :=
          match rgCommentExec attr2.data with
          | some inner => if inner.isEmpty then none else some (jsTrim (⟨inner⟩ : String))
          | none => none
        let length := getLength attr
        let columnName := jsTrim (⟨fname⟩ : String)
        let st :=
          if isPk then { st with primaryKeyList := st.primaryKeyList ++ [columnName] } else st
        if !inArray st.columnList columnName then
          { st with
            fieldList := st.fieldList ++ [{
              Field := columnName, Typ := jsTrim dataType, Length := length,
              Key := isPk, Nullable := nullable, Default := defaultValue,
              AutoIncrement := isAi, EnumValues := enumArray, Comment := comment }],
            columnList := st.columnList ++ [columnName] }
        else st
      else if isPrimaryKey line then
        match st.primaryKey with
        | none => { st with primaryKey := (parenGroupExec f).map (fun g => (⟨g⟩ : String)) }
        | some _ => st
      else st
    let st :=
      match st.primaryKey with
      | some pk =>
        let pk : String := ⟨pk.data.filter (fun c => !(c = '(' || c = ')'))⟩
        { st with
          primaryKey := some pk,
          fieldList := st.fieldList.map
            (fun fl : ColumnDefinition =>
              if fl.Field = pk then { fl with Key := true } else fl) }
      | none => st
    let hitPair := rgPk2Test f st.pk2Last
    let st := { st with pk2Last := hitPair.2 }
    if hitPair.1 && rgPkTest line then
      let x : List Char := replaceFirstByL rgPkAt [] f
      let x := replaceFirstStr (⟨x⟩ : String) "(" ""
      let x := replaceFirstStr x ")" ""
      let pkeys := (jsSplitChar x ',').map jsTrim
      { st with
        fieldList := st.fieldList.map
          (fun fl : ColumnDefinition =>
            if inArray pkeys fl.Field then { fl with Key := true } else fl) }
    else st

/-- The `while` loop of `parseTable` over successive `rg_fld` matches
(fuel ≥ input length suffices: every match consumes at least one char). -/
def parseFlds : Nat → List Char → ParseState → ParseState
  | 0, _, st => st
  | _ + 1, [], st => st
  | fuel + 1, l, st =>
    match findFld l with
    | none => st
    | some (f, rest) => parseFlds fuel rest (processFld st f)

/-- `TableParser.parseTable(sql)`.  `none` models the JS exceptions that
`parseAll` catches (no `CREATE TABLE` header: `result.groups` throws). -/
def parseTable (sql : String) : Option TableDefinition :=
  match execTb sql.data with
  | none => none
  | some tableName =>
    let st := parseFlds (sql.data.length + 1) sql.data
      { fieldList := [], primaryKey := none, columnList := [],
        primaryKeyList := [], pk2Last := 0, failed := false }
    if st.failed then none
    else
      let pk :=
        match st.primaryKey with
        | some p => some p
        | none => st.primaryKeyList.head?
      some { tableName := tableName, columns := st.fieldList, primaryKey := pk }

/-- `TableParser.parseAll(sql)` followed by `getResult()`: per-statement
failures are skipped by the try/catch. -/
def parseAll (sql : String) : List TableDefinition :=
  (parseSQL sql).filterMap (fun q => parseTable (formatSQL q.query))

end TableParser

namespace SQLConverter

/-- The matcher of `replaceAll(value, ' COLLATE pg_catalog."default"', '')`:
the search string is compiled as a regex, so its `.` matches any single
character. -/
def matchCollateAt (l : List Char) : Option (List Char) :=
  match litCIU " COLLATE pg_catalog".data l with
  | some (_ :: r) => litCIU "\"default\"".data r
  | _ => none

/-- The pre-processing `replaceAll` chain at the top of
`SQLConverter.translate`.  Note `' TINYINT(1)'` is compiled as a regex, where
`(1)` is a capture group around the literal `1`: the pattern actually
replaced is `' TINYINT1'`. -/
def translatePre (value : String) : String :=
  let value := replaceAllCI value "`" ""
  let value := replaceAllCI value " timestamp with time zone" " timestamptz"
  let value := replaceAllCI value " timestamp without time zone" " timestamp"
  let value := replaceAllCI value " character varying" " varchar"
  let value : String :=
    ⟨replaceAllByFuel matchCollateAt [] (value.data.length + 1) value.data⟩
  replaceAllCI value " TINYINT1" " boolean"

/-- `SQLConverter.translate(value, targetType)`: pre-process, parse all
tables, convert each, and join with CRLF blank-line separators. -/
def translate (value targetType : String) : String :=
  let value := translatePre value
  let tables := TableParser.parseAll value
  String.intercalate "\r\n" (tables.flatMap (fun t => [convertQuery t targetType, ""]))

end SQLConverter

/- ---------- helper lemmas ---------- -/

theorem isDigitCh_jsCharUpper (c : Char) (h : isDigitCh c = true) : jsCharUpper c = c := by
  have h' : c ∈ ['0', '1', '2', '3', '4', '5', '6', '7', '8', '9'] := by
    simpa [isDigitCh] using h
  fin_cases h' <;> decide

theorem all_not_digit_of_upper {s t : String} (h : jsStrUpper s = t)
    (ht : t.data.all (fun c => !isDigitCh c) = true) :
    s.data.all (fun c => !isDigitCh c) = true := by
  have hd : s.data.map jsCharUpper = t.data := by
    have := congrArg String.data h
    simpa [jsStrUpper] using this
  rw [List.all_eq_true] at ht ⊢
  intro c hc
  cases hdig : isDigitCh c with
  | false => simp
  | true =>
    have hmem : jsCharUpper c ∈ t.data := by
      rw [← hd]; exact List.mem_map_of_mem _ hc
    have h2 := ht _ hmem
    rw [isDigitCh_jsCharUpper c hdig] at h2
    rw [hdig] at h2
    simp at h2

theorem matchNDigits_head_none {c : Char} {t : List Char} (h : isDigitCh c = false) :
    matchNDigits 4 (c :: t) = none := by
  simp [matchNDigits, h]

theorem searchBy_dateAt_false {l : List Char} (h : l.all (fun c => !isDigitCh c) = true) :
    searchBy dateAt l = false := by
  induction l with
  | nil => decide
  | cons c t ih =>
    rw [List.all_cons] at h
    have hc : isDigitCh c = false := by
      cases hd : isDigitCh c
      · rfl
      · rw [hd] at h; simp at h
    have ht : t.all (fun c => !isDigitCh c) = true := by
      cases h2 : t.all (fun c => !isDigitCh c)
      · rw [h2] at h; simp at h
      · rfl
    show (dateAt (c :: t) || searchBy dateAt t) = false
    rw [ih ht]
    simp [dateAt, matchNDigits_head_none hc]

theorem searchBy_dateTimeAt_false {l : List Char} (h : l.all (fun c => !isDigitCh c) = true) :
    searchBy dateTimeAt l = false := by
  induction l with
  | nil => decide
  | cons c t ih =>
    rw [List.all_cons] at h
    have hc : isDigitCh c = false := by
      cases hd : isDigitCh c
      · rfl
      · rw [hd] at h; simp at h
    have ht : t.all (fun c => !isDigitCh c) = true := by
      cases h2 : t.all (fun c => !isDigitCh c)
      · rw [h2] at h; simp at h
      · rfl
    show (dateTimeAt (c :: t) || searchBy dateTimeAt t) = false
    rw [ih ht]
    simp [dateTimeAt, matchNDigits_head_none hc]

theorem searchBy_dateTimeMicroAt_false {l : List Char}
    (h : l.all (fun c => !isDigitCh c) = true) : searchBy dateTimeMicroAt l = false := by
  induction l with
  | nil => decide
  | cons c t ih =>
    rw [List.all_cons] at h
    have hc : isDigitCh c = false := by
      cases hd : isDigitCh c
      · rfl
      · rw [hd] at h; simp at h
    have ht : t.all (fun c => !isDigitCh c) = true := by
      cases h2 : t.all (fun c => !isDigitCh c)
      · rw [h2] at h; simp at h
      · rfl
    show (dateTimeMicroAt (c :: t) || searchBy dateTimeMicroAt t) = false
    rw [ih ht]
    simp [dateTimeMicroAt, matchNDigits_head_none hc]

theorem lookupPrefixCI_eq_none (tbl : List (String × String)) (ty : String)
    (h : tbl.all (fun p => !isPrefixCI p.1 ty) = true) :
    SQLConverter.lookupPrefixCI tbl ty = none := by
  have hf : tbl.find? (fun p => isPrefixCI p.1 ty) = none := by
    rw [List.find?_eq_none]
    intro x hx
    have := List.all_eq_true.mp h x hx
    simpa using this
  simp [SQLConverter.lookupPrefixCI, hf]

/- ---------- claim theorems ---------- -/

/-- C4: mapping the source type `ENUM('a','bb','ccc')` (length text holding
the quoted literals) yields `NVARCHAR(5)` for a SQLite target and
`CHARACTER VARYING(5)` for a PostgreSQL target, where `5` is the length of
the longest literal plus 2, and the native literal `enum('a','bb','ccc')`
for a MySQL target. -/
theorem C4_enum_mapping :
    SQLConverter.toSqliteType "ENUM" "'a','bb','ccc'" = "NVARCHAR(5)" ∧
    SQLConverter.toPostgreSQLType "ENUM" "'a','bb','ccc'" = "CHARACTER VARYING(5)" ∧
    SQLConverter.toMySQLType "ENUM" "'a','bb','ccc'" = "enum('a','bb','ccc')" ∧
    (SQLConverter.parseEnumValue "'a','bb','ccc'").2 = "ccc".length + 2 - 2 := by
  refine ⟨by decide, by decide, by decide, by decide⟩

/-- C5 counterexample: the claim includes `REAL` among the SQLite-native
tokens preserved by a SQLite-target mapping, but `dbToSqlite` has no key that
is a prefix of `real`, so `toSqliteType` falls back to `TEXT`. -/
theorem C5_counterexample_REAL :
    SQLConverter.toSqliteType "REAL" "" = "TEXT" ∧ ("TEXT" : String) ≠ "REAL" := by
  refine ⟨by decide, by decide⟩

/-- C5 (amended): dialect-identity holds for the SQLite-native tokens
`INTEGER`, `TEXT` and `NVARCHAR` (length preserved for `NVARCHAR` when
positive), but not for `REAL`, which maps to `TEXT`. -/
theorem C5_amended_sqlite_identity (length : String) :
    SQLConverter.toSqliteType "INTEGER" length = "INTEGER" ∧
    SQLConverter.toSqliteType "TEXT" length = "TEXT" ∧
    SQLConverter.toSqliteType "NVARCHAR" length =
      (if jsNumGtZero length then "NVARCHAR" ++ "(" ++ length ++ ")" else "NVARCHAR") := by
  refine ⟨rfl, rfl, rfl⟩

/-- C5 amended witness at length 255. -/
theorem C5_amended_witness :
    SQLConverter.toSqliteType "NVARCHAR" "255" = "NVARCHAR(255)" := by
  have h := (C5_amended_sqlite_identity "255").2.2
  simpa using h

/-- C10 counterexample: `SMALLINT` with length `5` starts with no key of
`dbToMySQL` and contains no `ENUM`, yet the MySQL mapper returns
`SMALLINT(5)` (integer-family early return), not the `TEXT` fallback. -/
theorem C10_counterexample_smallint :
    SQLConverter.dbToMySQL.all (fun p => !isPrefixCI p.1 "SMALLINT") = true ∧
    containsSub (jsStrUpper "SMALLINT") "ENUM" = false ∧
    SQLConverter.toMySQLType "SMALLINT" "5" = "SMALLINT(5)" ∧
    ("SMALLINT(5)" : String) ≠ "TEXT" := by
  refine ⟨by decide, by decide, by decide, by decide⟩

/-- C10 (amended): a source type token that starts with no key of the
target's mapping table and does not contain `ENUM` falls back to `TEXT` for
the SQLite and PostgreSQL mappers unconditionally, and for the MySQL mapper
unless one of its integer-family early returns fires (`TINYINT` with length
`== 1`, or `TINYINT`/`SMALLINT`/`MEDIUMINT`/`BIGINT`/`INTEGER`/`INT` with
length `> 0`, which re-emit the token with its length). -/
theorem C10_amended_fallback_TEXT :
    (∀ ty len : String,
      SQLConverter.dbToSqlite.all (fun p => !isPrefixCI p.1 ty) = true →
      containsSub (jsStrUpper ty) "ENUM" = false →
      SQLConverter.toSqliteType ty len = "TEXT") ∧
    (∀ ty len : String,
      SQLConverter.dbToPostgreSQL.all (fun p => !isPrefixCI p.1 ty) = true →
      containsSub (jsStrUpper ty) "ENUM" = false →
      SQLConverter.toPostgreSQLType ty len = "TEXT") ∧
    (∀ ty len : String,
      SQLConverter.dbToMySQL.all (fun p => !isPrefixCI p.1 ty) = true →
      containsSub (jsStrUpper ty) "ENUM" = false →
      (jsStrUpper ty = "TINYINT" && jsNumEqOne len) = false →
      ((jsStrUpper ty = "TINYINT" || jsStrUpper ty = "SMALLINT" ||
        jsStrUpper ty = "MEDIUMINT" || jsStrUpper ty = "BIGINT" ||
        jsStrUpper ty = "INTEGER" || jsStrUpper ty = "INT") && jsNumGtZero len) = false →
      SQLConverter.toMySQLType ty len = "TEXT") := by
  refine ⟨?_, ?_, ?_⟩
  · intro ty len hAll hEnum
    have hl := lookupPrefixCI_eq_none SQLConverter.dbToSqlite ty hAll
    simp [SQLConverter.toSqliteType, hl, hEnum]
  · intro ty len hAll hEnum
    have hl := lookupPrefixCI_eq_none SQLConverter.dbToPostgreSQL ty hAll
    simp [SQLConverter.toPostgreSQLType, hl, hEnum]
  · intro ty len hAll hEnum h1 h2
    have hl := lookupPrefixCI_eq_none SQLConverter.dbToMySQL ty hAll
    have hrep : replaceAllCI "TEXT" "TIMESTAMPTZ" "TIMESTAMP" = "TEXT" := by decide
    simp [SQLConverter.toMySQLType, hl, hEnum, h1, h2, hrep]

/-- C10 amended witness: an unrecognized type token maps to `TEXT` in all
three mappers. -/
theorem C10_amended_witness :
    SQLConverter.toSqliteType "GEOMETRY" "" = "TEXT" ∧
    SQLConverter.toPostgreSQLType "GEOMETRY" "" = "TEXT" ∧
    SQLConverter.toMySQLType "GEOMETRY" "" = "TEXT" := by
  refine ⟨C10_amended_fallback_TEXT.1 "GEOMETRY" "" (by decide) (by decide),
    C10_amended_fallback_TEXT.2.1 "GEOMETRY" "" (by decide) (by decide),
    C10_amended_fallback_TEXT.2.2 "GEOMETRY" "" (by decide) (by decide) (by decide) (by decide)⟩

/-- C1: actual end-to-end output of `translate` on the README example script.
The claim (and the repository README) expect pgsql output
`"id" INTEGER NOT NULL PRIMARY KEY` with double-quoted column names, and
sqlite output `id INTEGER NOT NULL PRIMARY KEY`; the code instead leaves
pgsql column names unquoted, maps the source type `INT` to the `TEXT`
fallback for pgsql (no key of `dbToPostgreSQL` is a prefix of `int`), and
emits the clauses in the order `PRIMARY KEY NOT NULL`. -/
theorem C1_translate_users_actual :
    SQLConverter.translate "CREATE TABLE users (id INT NOT NULL AUTO_INCREMENT PRIMARY KEY, username VARCHAR(255) NOT NULL, email VARCHAR(255), created_at DATETIME);" "pgsql" =
      "CREATE TABLE \"users\"\r\n(\r\n\tid TEXT PRIMARY KEY NOT NULL,\r\n\tusername CHARACTER VARYING(255) NOT NULL,\r\n\temail CHARACTER VARYING(255) NULL,\r\n\tcreated_at TIMESTAMP WITHOUT TIME ZONE NULL\r\n);\r\n" ∧
    SQLConverter.translate "CREATE TABLE users (id INT NOT NULL AUTO_INCREMENT PRIMARY KEY, username VARCHAR(255) NOT NULL, email VARCHAR(255), created_at DATETIME);" "sqlite" =
      "CREATE TABLE users\r\n(\r\n\tid INTEGER PRIMARY KEY NOT NULL,\r\n\tusername NVARCHAR(255) NOT NULL,\r\n\temail NVARCHAR(255) NULL,\r\n\tcreated_at TEXT NULL\r\n);\r\n" := by
  refine ⟨by decide, by decide⟩

/-- C3: actual result of parsing a composite table-level
`PRIMARY KEY(a, b)`.  The claim says both columns get `key=true`; in the
code, `formatSQL` breaks the column list at the comma
(`PRIMARY KEY(a,` / `b))`), so the constraint fragment never matches the
paren-extraction regexes and both `Key` flags stay `false`
(`primaryKey` is `undefined`, modelled as `none`). -/
theorem C3_compositeKey_actual :
    TableParser.parseAll "CREATE TABLE t (a INT, b INT, PRIMARY KEY(a, b));" =
      [{ tableName := "t",
         columns := [
          { Field := "a", Typ := "INT", Length := "", Key := false, Nullable := true,
            Default := none, AutoIncrement := false, EnumValues := none, Comment := none },
          { Field := "b", Typ := "INT", Length := "", Key := false, Nullable := true,
            Default := none, AutoIncrement := false, EnumValues := none, Comment := none }],
         primaryKey := none }] := by
  decide

/-- C6 counterexample: in the script `"a\n\nb;"` the blank line occurs in the
middle of the single statement, but the returned statement text is
`"a\r\nb"` — the blank line is dropped entirely, not preserved as a line
break (the splitter filters blank lines away before its state machine, so the
preserving branch is dead code). -/
theorem C6_counterexample_blankLine :
    TableParser.parseSQL "a\n\nb;" = [{ query := "a\r\nb", delimiter := ";" }] ∧
    containsSub "a\r\nb" "\r\n\r\n" = false := by
  refine ⟨by decide, by decide⟩

/-- C6 (amended): a line that the splitter classifies as droppable — blank
after trimming, exactly `--`, or starting with the line-comment marker
`-- ` — never contributes to any returned statement: inserting such a line
anywhere (including mid-statement) leaves the split result unchanged.
Consequently a mid-statement blank line is dropped, not preserved. -/
theorem C6_amended_dropped_lines (l1 l2 : List String) (c : String)
    (h : (!jsStartsWith (jsTrim c) "-- " && jsTrim c ≠ "--" && jsTrim c ≠ "") = false) :
    TableParser.parseSQLLines (l1 ++ c :: l2) = TableParser.parseSQLLines (l1 ++ l2) := by
  unfold TableParser.parseSQLLines
  rw [List.map_append, List.map_append, List.map_cons,
    List.filter_append, List.filter_append, List.filter_cons]
  simp only [h]
  rfl

/-- C6 amended witness: inserting a blank line mid-statement does not change
the split. -/
theorem C6_amended_witness :
    TableParser.parseSQLLines ["a", "", "b;"] = TableParser.parseSQLLines ["a", "b;"] := by
  exact C6_amended_dropped_lines ["a"] ["b;"] "" (by decide)

/-- C2 counterexample: parsing
`CREATE TABLE t (a INT PRIMARY KEY, b INT PRIMARY KEY);` marks both columns
`Key=true`, but only `a` becomes the designated `primaryKey`; emission keys
the `NOT NULL` forcing on `Field === table.primaryKey`, not on the `Key`
flag, so column `b` (nullable, `Key=true`) is emitted `b INTEGER NULL`. -/
theorem C2_counterexample_secondKey :
    TableParser.parseAll "CREATE TABLE t (a INT PRIMARY KEY, b INT PRIMARY KEY);" =
      [{ tableName := "t",
         columns := [
          { Field := "a", Typ := "INT", Length := "", Key := true, Nullable := true,
            Default := none, AutoIncrement := false, EnumValues := none, Comment := none },
          { Field := "b", Typ := "INT", Length := "", Key := true, Nullable := true,
            Default := none, AutoIncrement := false, EnumValues := none, Comment := none }],
         primaryKey := some "a" }] ∧
    SQLConverter.translate "CREATE TABLE t (a INT PRIMARY KEY, b INT PRIMARY KEY);" "sqlite" =
      "CREATE TABLE t\r\n(\r\n\ta INTEGER PRIMARY KEY NOT NULL,\r\n\tb INTEGER NULL\r\n);\r\n" ∧
    containsSub "CREATE TABLE t\r\n(\r\n\ta INTEGER PRIMARY KEY NOT NULL,\r\n\tb INTEGER NULL\r\n);\r\n"
      "\tb INTEGER NULL" = true ∧
    containsSub "CREATE TABLE t\r\n(\r\n\ta INTEGER PRIMARY KEY NOT NULL,\r\n\tb INTEGER NULL\r\n);\r\n"
      "b INTEGER NOT NULL" = false := by
  refine ⟨by decide, by decide, by decide, by decide⟩

/-- C2 (amended): at emission time, the column whose name equals the table's
designated `primaryKey` is always rendered `<name> <type> PRIMARY KEY NOT
NULL` (never `NULL`, and its default is suppressed); any other column —
including one with `key=true` that is not the designated primary key — is
rendered `NULL`/`NOT NULL` purely according to its parsed `nullable` flag. -/
theorem C2_amended_emission :
    (∀ (targetType : String) (primaryKey : Option String) (col : ColumnDefinition),
      (primaryKey == some col.Field) = true →
      SQLConverter.emitColDef targetType primaryKey col =
        "\t" ++ (if targetType = "mysql" || targetType = "mariadb"
                 then "`" ++ col.Field ++ "`" else col.Field) ++
          " " ++ col.Typ ++ " PRIMARY KEY" ++ " NOT NULL") ∧
    (∀ (targetType : String) (primaryKey : Option String) (col : ColumnDefinition),
      (primaryKey == some col.Field) = false → col.Default = none →
      SQLConverter.emitColDef targetType primaryKey col =
        (if col.Nullable
         then "\t" ++ (if targetType = "mysql" || targetType = "mariadb"
                       then "`" ++ col.Field ++ "`" else col.Field) ++
              " " ++ col.Typ ++ " NULL"
         else "\t" ++ (if targetType = "mysql" || targetType = "mariadb"
                       then "`" ++ col.Field ++ "`" else col.Field) ++
              " " ++ col.Typ ++ " NOT NULL")) := by
  constructor
  · intro targetType primaryKey col h
    unfold SQLConverter.emitColDef
    rw [h]
    cases hd : col.Default <;> simp
  · intro targetType primaryKey col h hd
    unfold SQLConverter.emitColDef
    rw [h, hd]
    cases col.Nullable <;> simp

/-- C2 amended witness. -/
theorem C2_amended_witness :
    SQLConverter.emitColDef "sqlite" (some "a")
      { Field := "a", Typ := "INTEGER", Length := "", Key := true, Nullable := true,
        Default := some "x", AutoIncrement := false, EnumValues := none, Comment := none } =
      "\t" ++ "a" ++ " " ++ "INTEGER" ++ " PRIMARY KEY" ++ " NOT NULL" ∧
    SQLConverter.emitColDef "sqlite" (some "a")
      { Field := "b", Typ := "INTEGER", Length := "", Key := true, Nullable := true,
        Default := none, AutoIncrement := false, EnumValues := none, Comment := none } =
      "\t" ++ "b" ++ " " ++ "INTEGER" ++ " NULL" := by
  constructor
  · have h := C2_amended_emission.1 "sqlite" (some "a")
      { Field := "a", Typ := "INTEGER", Length := "", Key := true, Nullable := true,
        Default := some "x", AutoIncrement := false, EnumValues := none, Comment := none }
      (by decide)
    simpa using h
  · have h := C2_amended_emission.2 "sqlite" (some "a")
      { Field := "b", Typ := "INTEGER", Length := "", Key := true, Nullable := true,
        Default := none, AutoIncrement := false, EnumValues := none, Comment := none }
      (by decide) rfl
    simpa using h

/-- C7 counterexample: the claim quantifies over every column whose
normalized default is `NOW()`, but for a column that is the designated
primary key the emitter skips the default entirely, so a MySQL target does
not append `DEFAULT NOW()`: in
`CREATE TABLE t (a DATETIME PRIMARY KEY DEFAULT NOW(), b INT);` column `a`
parses with `Default = NOW()`, yet the MySQL output contains no `DEFAULT`. -/
theorem C7_counterexample_pkNow :
    TableParser.parseAll "CREATE TABLE t (a DATETIME PRIMARY KEY DEFAULT NOW(), b INT);" =
      [{ tableName := "t",
         columns := [
          { Field := "a", Typ := "DATETIME", Length := "", Key := true, Nullable := true,
            Default := some "NOW()", AutoIncrement := false, EnumValues := none, Comment := none },
          { Field := "b", Typ := "INT", Length := "", Key := false, Nullable := true,
            Default := none, AutoIncrement := false, EnumValues := none, Comment := none }],
         primaryKey := some "a" }] ∧
    SQLConverter.translate "CREATE TABLE t (a DATETIME PRIMARY KEY DEFAULT NOW(), b INT);" "mysql" =
      "CREATE TABLE `t`\r\n(\r\n\t`a` DATETIME PRIMARY KEY NOT NULL,\r\n\t`b` TEXT NULL\r\n);\r\n" ∧
    containsSub "CREATE TABLE `t`\r\n(\r\n\t`a` DATETIME PRIMARY KEY NOT NULL,\r\n\t`b` TEXT NULL\r\n);\r\n"
      "DEFAULT" = false := by
  refine ⟨by decide, by decide, by decide⟩

/-- C7 (amended): for a column that is *not* the designated primary key and
whose normalized default is `NOW()`, a SQLite target drops the `DEFAULT`
clause entirely while MySQL and PostgreSQL targets append `DEFAULT NOW()`;
the designated primary-key column never receives a `DEFAULT` clause. -/
theorem C7_amended_now_default (primaryKey : Option String) (col : ColumnDefinition)
    (hpk : (primaryKey == some col.Field) = false) (hd : col.Default = some "NOW()") :
    SQLConverter.emitColDef "sqlite" primaryKey col =
      (if col.Nullable then "\t" ++ col.Field ++ " " ++ col.Typ ++ " NULL"
       else "\t" ++ col.Field ++ " " ++ col.Typ ++ " NOT NULL") ∧
    SQLConverter.emitColDef "mysql" primaryKey col =
      (if col.Nullable
       then "\t" ++ ("`" ++ col.Field ++ "`") ++ " " ++ col.Typ ++ " NULL"
       else "\t" ++ ("`" ++ col.Field ++ "`") ++ " " ++ col.Typ ++ " NOT NULL") ++
      " DEFAULT " ++ "NOW()" ∧
    SQLConverter.emitColDef "pgsql" primaryKey col =
      (if col.Nullable then "\t" ++ col.Field ++ " " ++ col.Typ ++ " NULL"
       else "\t" ++ col.Field ++ " " ++ col.Typ ++ " NOT NULL") ++
      " DEFAULT " ++ "NOW()" := by
  have hstrip : replaceAllCI "NOW()" "::character varying" "" = "NOW()" := by decide
  have hsql : SQLConverter.fixDefaultValue "NOW()" "sqlite" = "" := by decide
  have hmy : SQLConverter.fixDefaultValue "NOW()" "mysql" = "NOW()" := by decide
  have hpg : SQLConverter.fixDefaultValue "NOW()" "pgsql" = "NOW()" := by decide
  refine ⟨?_, ?_, ?_⟩ <;>
    · unfold SQLConverter.emitColDef
      rw [hpk, hd]
      cases col.Nullable <;> simp [hstrip, hsql, hmy, hpg]

/-- C7 amended witness. -/
theorem C7_amended_witness :
    SQLConverter.emitColDef "sqlite" (some "id")
      { Field := "created_at", Typ := "TEXT", Length := "", Key := false, Nullable := true,
        Default := some "NOW()", AutoIncrement := false, EnumValues := none, Comment := none } =
      "\t" ++ "created_at" ++ " " ++ "TEXT" ++ " NULL" ∧
    SQLConverter.emitColDef "mysql" (some "id")
      { Field := "created_at", Typ := "DATETIME", Length := "", Key := false, Nullable := true,
        Default := some "NOW()", AutoIncrement := false, EnumValues := none, Comment := none } =
      "\t" ++ ("`" ++ "created_at" ++ "`") ++ " " ++ "DATETIME" ++ " NULL" ++ " DEFAULT " ++ "NOW()" := by
  constructor
  · have h := (C7_amended_now_default (some "id")
      { Field := "created_at", Typ := "TEXT", Length := "", Key := false, Nullable := true,
        Default := some "NOW()", AutoIncrement := false, EnumValues := none, Comment := none }
      (by decide) rfl).1
    simpa using h
  · have h := (C7_amended_now_default (some "id")
      { Field := "created_at", Typ := "DATETIME", Length := "", Key := false, Nullable := true,
        Default := some "NOW()", AutoIncrement := false, EnumValues := none, Comment := none }
      (by decide) rfl).2.1
    simpa using h

/-- C9: per-statement failures are isolated.  Exceptions thrown by
`parseTable` (no `CREATE TABLE` header) are modelled as `none` and skipped by
`parseAll`'s try/catch, which accumulates exactly the successfully parsed
tables; a script whose statements produce no table makes `translate` return
the empty string, and a failing statement does not prevent later statements
from parsing. -/
theorem C9_parse_failure_isolation :
    (∀ value targetType : String,
      TableParser.parseAll (SQLConverter.translatePre value) = [] →
      SQLConverter.translate value targetType = "") ∧
    SQLConverter.translate "SELECT * FROM x;\nDROP TABLE y;" "pgsql" = "" ∧
    (TableParser.parseAll "SELECT 1;\nCREATE TABLE t (a INT);").map
      TableDefinition.tableName = ["t"] := by
  refine ⟨?_, by decide, by decide⟩
  intro value targetType h
  show String.intercalate "\r\n"
    ((TableParser.parseAll (SQLConverter.translatePre value)).flatMap
      (fun t => [SQLConverter.convertQuery t targetType, ""])) = ""
  rw [h]
  rfl

/-- C9 witness: a comment-only script yields the empty translation. -/
theorem C9_witness :
    SQLConverter.translate "-- nothing here" "sqlite" = "" := by
  exact C9_parse_failure_isolation.1 "-- nothing here" "sqlite" (by decide)

/-- C8: the default-value normalizer classifies with first-match-wins:
a token containing `NULL` (case-insensitively) becomes the canonical `NULL`;
otherwise a numeric token (per the JS `!isNaN` test) is wrapped in single
quotes; otherwise a token equal (case-insensitively) to `CURRENT_TIMESTAMP`
or `NOW()` is uppercased; otherwise a token equal to `TRUE`/`FALSE` is
uppercased; empty or absent input yields null. -/
theorem C8_fixDefaultValue_classification :
    (∀ s : String, containsSub (jsStrUpper s) "NULL" = true →
      TableParser.fixDefaultValue (some s) = some "NULL") ∧
    (∀ s : String, containsSub (jsStrUpper s) "NULL" = false →
      TableParser.isNumber s = true →
      TableParser.fixDefaultValue (some s) = some ("'" ++ s ++ "'")) ∧
    (∀ s : String, containsSub (jsStrUpper s) "NULL" = false →
      TableParser.isNumber s = false →
      (jsStrUpper s = "CURRENT_TIMESTAMP" ∨ jsStrUpper s = "NOW()") →
      TableParser.fixDefaultValue (some s) = some (jsStrUpper s)) ∧
    (∀ s : String, containsSub (jsStrUpper s) "NULL" = false →
      TableParser.isNumber s = false →
      (jsStrUpper s = "TRUE" ∨ jsStrUpper s = "FALSE") →
      TableParser.fixDefaultValue (some s) = some (jsStrUpper s)) ∧
    TableParser.fixDefaultValue none = none ∧
    TableParser.fixDefaultValue (some "") = none := by
  refine ⟨?_, ?_, ?_, ?_, rfl, by decide⟩
  · intro s h1
    by_cases hs : s = ""
    · subst hs; exact absurd h1 (by decide)
    · simp [TableParser.fixDefaultValue, hs, h1]
  · intro s h1 h2
    by_cases hs : s = ""
    · subst hs; exact absurd h2 (by decide)
    · simp [TableParser.fixDefaultValue, hs, h1, h2]
  · intro s h1 h2 hU
    have hs : ¬ s = "" := by
      intro he; subst he
      rcases hU with h | h <;> exact absurd h (by decide)
    have hct : TableParser.rgCtNowTest s = true := by
      unfold TableParser.rgCtNowTest
      rcases hU with h | h <;> rw [h] <;> decide
    simp [TableParser.fixDefaultValue, hs, h1, h2, hct]
  · intro s h1 h2 hU
    have hs : ¬ s = "" := by
      intro he; subst he
      rcases hU with h | h <;> exact absurd h (by decide)
    rcases hU with hU | hU <;>
    · have hd : s.data.map jsCharUpper = (jsStrUpper s).data := by simp [jsStrUpper]
      rw [hU] at hd
      have hnd : s.data.all (fun c => !isDigitCh c) = true :=
        all_not_digit_of_upper hU (by decide)
      have h5 : searchBy dateTimeAt s.data = false := searchBy_dateTimeAt_false hnd
      have h6 : searchBy dateTimeMicroAt s.data = false := searchBy_dateTimeMicroAt_false hnd
      have hsw : jsStartsWith s "'" = false := by
        cases hsd : s.data with
        | nil => rw [hsd] at hd; exact absurd hd (by decide)
        | cons c t0 =>
          rw [hsd, List.map_cons] at hd
          have hcU : jsCharUpper c = ('T' : Char) ∨ jsCharUpper c = ('F' : Char) := by
            injection hd with hh1 hh2
            first
            | exact Or.inl hh1
            | exact Or.inr hh1
          have hc : ¬ c = '\'' := by
            intro he; rw [he] at hcU
            rcases hcU with h | h <;> exact absurd h (by decide)
          have hc2 : ¬ '\'' = c := fun he => hc he.symm
          unfold jsStartsWith
          rw [hsd]
          simp [List.isPrefixOf, hc, hc2]
      have hctf : TableParser.rgCtNowTest s = false := by
        unfold TableParser.rgCtNowTest; rw [hU]; decide
      have htf : TableParser.rgTrueFalseTest s = true := by
        unfold TableParser.rgTrueFalseTest; rw [hU]; decide
      simp [TableParser.fixDefaultValue, hs, h1, h2, hctf, hsw, h5, h6, htf]

/-- C8 witness: the four classification clauses at concrete tokens. -/
theorem C8_witness :
    TableParser.fixDefaultValue (some "default null") = some "NULL" ∧
    TableParser.fixDefaultValue (some "123") = some "'123'" ∧
    TableParser.fixDefaultValue (some "now()") = some "NOW()" ∧
    TableParser.fixDefaultValue (some "true") = some "TRUE" := by
  refine ⟨?_, ?_, ?_, ?_⟩
  · exact C8_fixDefaultValue_classification.1 "default null" (by decide)
  · exact C8_fixDefaultValue_classification.2.1 "123" (by decide) (by decide)
  · have h := C8_fixDefaultValue_classification.2.2.1 "now()" (by decide) (by decide)
      (Or.inr (by decide))
    simpa using h
  · have h := C8_fixDefaultValue_classification.2.2.2.1 "true" (by decide) (by decide)
      (Or.inl (by decide))
    simpa using h
